import Mathlib

/-!
Verification of `torchgeometry/core/affine.py`: 2D affine transforms
(rotation, translation, scaling) applied to image tensors.

Tensors are shallowly embedded as a flat row-major list of rational data
together with a shape, a dtype tag and a device tag.  Python-level dynamic
typing is embedded by `PyVal` (a value that is either a tensor or some other
Python object), and Python exceptions by `PyErr`; fallible operations return
`Except PyErr`.  The two collaborators of this module that live elsewhere in
the repository (`get_rotation_matrix2d` and `warp_affine`) are modelled from
the specification, as marked on their doc comments.
-/

deriving instance DecidableEq for Except

namespace TG

/-- Python exceptions raised by the module.  `typeError` carries the offending
argument's name and the observed runtime type; `shapeError` is the module's
own "Invalid tensor shape, we expect CxHxW or BxCxHxW" ValueError and carries
the offending shape; the remaining kinds are delegated errors surfaced by
torch primitives (broadcast failures, index errors, attribute errors) or by
other Python machinery (tuple-unpacking ValueErrors). -/
inductive PyErr where
  | typeError (arg : String) (got : String)
  | shapeError (shape : List Nat)
  | valueError (msg : String)
  | indexError (msg : String)
  | attributeError (msg : String)
  | runtimeError (msg : String)
  deriving DecidableEq

/-- Errors not raised explicitly by `affine.py` itself: everything except the
module's own `TypeError`s and its shape `ValueError`. -/
def PyErr.delegated : PyErr → Bool
  | .typeError _ _ => false
  | .shapeError _ => false
  | _ => true

/-- A torch tensor: row-major flat data plus shape, dtype tag, device tag. -/
structure Tensor where
  shape : List Nat
  data : List ℚ
  dtype : Nat
  device : Nat
  deriving DecidableEq

/-- Read the flat data at index `i` (0 outside the stored data). -/
def flatGet (t : Tensor) (i : Nat) : ℚ := t.data.getD i 0

/-- A dynamically typed Python value: a tensor or some other object,
represented by its type name. -/
inductive PyVal where
  | tensor (t : Tensor)
  | other (typeName : String)
  deriving DecidableEq

/-- Embedding of `torch.is_tensor`. -/
def is_tensor : PyVal → Bool
  | .tensor _ => true
  | .other _ => false

/-- The name of a Python value's runtime type, as printed in error messages. -/
def pyTypeName : PyVal → String
  | .tensor _ => "Tensor"
  | .other ty => ty

/-- Row-major multi-index of flat index `i` under `shape`. -/
def unflatten : List Nat → Nat → List Nat
  | [], _ => []
  | _ :: ss, i => i / ss.prod :: unflatten ss (i % ss.prod)

/-- Row-major flat index of a multi-index under `shape`. -/
def flattenIdx : List Nat → List Nat → Nat
  | _ :: ss, j :: js => j * ss.prod + flattenIdx ss js
  | _, _ => 0

/-- Per-dimension size resolution of `torch.Tensor.expand` for the trailing
dimensions that already exist: `-1` keeps the current size, a size equal to
the current one is allowed, and a singleton dimension may be broadcast to any
requested nonnegative size; anything else is a RuntimeError. -/
def resolveDims : List Nat → List ℤ → Except PyErr (List Nat)
  | [], _ => .ok []
  | _ :: _, [] => .error (.runtimeError "expand: not enough sizes provided")
  | c :: cs, s :: ss =>
    if s = -1 ∨ s = (c : ℤ) then (resolveDims cs ss).map (fun r => c :: r)
    else if c = 1 ∧ 0 ≤ s then (resolveDims cs ss).map (fun r => s.toNat :: r)
    else .error (.runtimeError ("The expanded size of the tensor (" ++ toString s ++
      ") must match the existing size (" ++ toString c ++ ")"))

/-- Embedding of `torch.Tensor.expand`: new leading dimensions may be added
(they cannot be `-1`), existing dimensions follow `resolveDims`, and the data
is broadcast accordingly (a dimension of current size 1 always reads index 0). -/
def Tensor.expand (t : Tensor) (sizes : List ℤ) : Except PyErr Tensor :=
  if sizes.length < t.shape.length then
    .error (.runtimeError "expand: the number of sizes must be at least the number of dimensions")
  else if (sizes.take (sizes.length - t.shape.length)).any (fun s => decide (s < 0)) then
    .error (.runtimeError "expand: the size -1 is not allowed in a leading, non-existing dimension")
  else
    (resolveDims t.shape (sizes.drop (sizes.length - t.shape.length))).map fun dims =>
      let outShape := (sizes.take (sizes.length - t.shape.length)).map Int.toNat ++ dims
      ⟨outShape,
       (List.range outShape.prod).map fun i =>
         flatGet t (flattenIdx t.shape
           (List.zipWith (fun c j => if c = 1 then 0 else j) t.shape
             ((unflatten outShape i).drop (sizes.length - t.shape.length)))),
       t.dtype, t.device⟩

/-- Embedding of `tensor.shape[0]`: an IndexError on a 0-dimensional tensor. -/
def shape0 (t : Tensor) : Except PyErr Nat :=
  match t.shape with
  | [] => .error (.indexError "tuple index out of range")
  | s :: _ => .ok s

/-- Embedding of `torch.unsqueeze(t, dim=0)`. -/
def unsqueeze0 (t : Tensor) : Tensor := ⟨1 :: t.shape, t.data, t.dtype, t.device⟩

/-- Embedding of `torch.squeeze(t, dim=0)`: drops dimension 0 only when it has
size 1. -/
def squeeze0 (t : Tensor) : Tensor :=
  match t.shape with
  | 1 :: rest => ⟨rest, t.data, t.dtype, t.device⟩
  | _ => t

/-- Embedding of `torch.ones_like`. -/
def ones_like (t : Tensor) : Tensor :=
  ⟨t.shape, (List.range t.shape.prod).map fun _ => (1 : ℚ), t.dtype, t.device⟩

/-- Embedding of `torch.zeros_like`. -/
def zeros_like (t : Tensor) : Tensor :=
  ⟨t.shape, (List.range t.shape.prod).map fun _ => (0 : ℚ), t.dtype, t.device⟩

/-- Modelled from the spec: the external rotation-matrix primitive takes its
angle "in degrees (per external convention)".  The primitive's trigonometry is
opaque numerics owned by the collaborator; it is represented here by a
computable rational approximation (truncated Taylor series after an
approximate degree-to-radian conversion), which is exact at angle 0 — the
only angle any claim evaluates. -/
def degToRad (x : ℚ) : ℚ := x * (355 / 113) / 180

/-- Modelled from the spec: sine of an angle given in degrees (see `degToRad`). -/
def sindeg (x : ℚ) : ℚ :=
  (degToRad x) - (degToRad x) ^ 3 / 6 + (degToRad x) ^ 5 / 120

/-- Modelled from the spec: cosine of an angle given in degrees (see `degToRad`). -/
def cosdeg (x : ℚ) : ℚ :=
  1 - (degToRad x) ^ 2 / 2 + (degToRad x) ^ 4 / 24

/-- Modelled from the spec: the external collaborator `get_rotation_matrix2d`
(repository code outside `src/`), with signature "(center: batch of 2-vectors,
angle: batch of scalars-in-degrees, scale: batch of scalars) -> batch of 3x3
matrices", implementing "standard 2D affine rotation-about-point composition
with optional uniform scale": with a = s*cos(angle), b = s*sin(angle) the k-th
matrix is [[a, b, (1-a)*cx - b*cy], [-b, a, b*cx + (1-a)*cy], [0, 0, 1]]. -/
def get_rotation_matrix2d (center angle scale : Tensor) : Tensor :=
  ⟨[angle.shape.getD 0 0, 3, 3],
   (List.range (angle.shape.getD 0 0 * 3 * 3)).map fun i =>
     let c := i % 3
     let r := i / 3 % 3
     let k := i / 3 / 3
     let cx := flatGet center (k * 2)
     let cy := flatGet center (k * 2 + 1)
     let al := flatGet scale k * cosdeg (flatGet angle k)
     let be := flatGet scale k * sindeg (flatGet angle k)
     if r = 0 then (if c = 0 then al else if c = 1 then be else (1 - al) * cx - be * cy)
     else if r = 1 then (if c = 0 then -be else if c = 1 then al else be * cx + (1 - al) * cy)
     else (if c = 0 then 0 else if c = 1 then 0 else 1),
   center.dtype, center.device⟩

/-- Embedding of the slicing `matrix[..., :2, :3]` at its call sites, where
the matrix is always a rank-3 batch of matrices. -/
def sliceLast23 (t : Tensor) : Tensor :=
  match t.shape with
  | [b, r, c] =>
    ⟨[b, min 2 r, min 3 c],
     (List.range (b * min 2 r * min 3 c)).map fun i =>
       let c3 := i % min 3 c
       let r2 := i / min 3 c % min 2 r
       let k := i / min 3 c / min 2 r
       flatGet t ((k * r + r2) * c + c3),
     t.dtype, t.device⟩
  | _ => t

/-- Matrix entry (r, c) of the b-th 2x3 matrix of a warp-matrix batch. -/
def mget (m : Tensor) (b r c : Nat) : ℚ := flatGet m ((b * 2 + r) * 3 + c)

/-- Pixel read with zero padding outside the image plane. -/
def pixelAt (src : Tensor) (ch ht wd b c : Nat) (x y : ℤ) : ℚ :=
  if 0 ≤ x ∧ x < (wd : ℤ) ∧ 0 ≤ y ∧ y < (ht : ℤ) then
    flatGet src (((b * ch + c) * ht + y.toNat) * wd + x.toNat)
  else 0

/-- Bilinear interpolation of channel (b, c) of `src` at point (u, v). -/
def bilerp (src : Tensor) (ch ht wd b c : Nat) (u v : ℚ) : ℚ :=
  (1 - (v - (⌊v⌋ : ℚ))) *
    ((1 - (u - (⌊u⌋ : ℚ))) * pixelAt src ch ht wd b c ⌊u⌋ ⌊v⌋ +
      (u - (⌊u⌋ : ℚ)) * pixelAt src ch ht wd b c (⌊u⌋ + 1) ⌊v⌋) +
  (v - (⌊v⌋ : ℚ)) *
    ((1 - (u - (⌊u⌋ : ℚ))) * pixelAt src ch ht wd b c ⌊u⌋ (⌊v⌋ + 1) +
      (u - (⌊u⌋ : ℚ)) * pixelAt src ch ht wd b c (⌊u⌋ + 1) (⌊v⌋ + 1))

/-- Modelled from the spec: the external warp primitive `warp_affine`
(repository code outside `src/`), with signature "(image: B,C,H,W tensor,
matrix: batch of 2x3 matrices, output_size: (H,W)) -> B,C,H,W tensor",
"assumed to implement inverse-warp bilinear (or similar) resampling" whose
interpolation and boundary policy "is owned by the collaborator": here each
output pixel (b, c, y, x) bilinearly samples the source at the point obtained
by applying the b-th matrix to (x, y), with zero padding out of bounds. -/
def warp_affine (src m : Tensor) (dsize : Nat × Nat) : Tensor :=
  ⟨[src.shape.getD 0 0, src.shape.getD 1 0, dsize.1, dsize.2],
   (List.range (src.shape.getD 0 0 * src.shape.getD 1 0 * dsize.1 * dsize.2)).map fun i =>
     let x := i % dsize.2
     let y := i / dsize.2 % dsize.1
     let c := i / dsize.2 / dsize.1 % src.shape.getD 1 0
     let b := i / dsize.2 / dsize.1 / src.shape.getD 1 0
     bilerp src (src.shape.getD 1 0) (src.shape.getD 2 0) (src.shape.getD 3 0) b c
       (mget m b 0 0 * (x : ℚ) + mget m b 0 1 * (y : ℚ) + mget m b 0 2)
       (mget m b 1 0 * (x : ℚ) + mget m b 1 1 * (y : ℚ) + mget m b 1 2),
   src.dtype, src.device⟩

/-- Embedding of `_compute_tensor_center`: reads `height, width =
tensor.shape[-2:]` (a tuple-unpacking ValueError when the tensor has fewer
than two dimensions) and returns the 2-vector
`[(width - 1) / 2, (height - 1) / 2]` with the input's dtype and device. -/
def _compute_tensor_center (tensor : Tensor) : Except PyErr Tensor :=
  match tensor.shape.drop (tensor.shape.length - 2) with
  | [height, width] =>
    .ok ⟨[2], [((width : ℚ) - 1) / 2, ((height : ℚ) - 1) / 2], tensor.dtype, tensor.device⟩
  | _ => .error (.valueError "not enough values to unpack (expected 2)")

/-- Embedding of `_compute_rotation_matrix`: unit scale, delegate to
`get_rotation_matrix2d`. -/
def _compute_rotation_matrix (angle center : Tensor) : Tensor :=
  get_rotation_matrix2d center angle (ones_like angle)

/-- Embedding of `_compute_translation_matrix`: a batch of identity 3x3
matrices (repeated to `translation.shape[0]`) with `dx` added into cell (0,2)
and `dy` into cell (1,2).  The source reaches this shape through
`torch.chunk(translation, 2, dim=-1)` and an in-place `+=`; any translation
whose shape is not (B, 2) fails inside that chunk/unpack/broadcast machinery,
modelled as a single delegated runtime failure. -/
def _compute_translation_matrix (translation : Tensor) : Except PyErr Tensor :=
  match translation.shape with
  | [b, 2] =>
    .ok ⟨[b, 3, 3],
      (List.range (b * 3 * 3)).map fun i =>
        (if i / 3 % 3 = i % 3 then 1 else 0) +
          (if i / 3 % 3 = 0 ∧ i % 3 = 2 then flatGet translation (i / 3 / 3 * 2)
           else if i / 3 % 3 = 1 ∧ i % 3 = 2 then flatGet translation (i / 3 / 3 * 2 + 1)
           else 0),
      translation.dtype, translation.device⟩
  | _ => .error (.runtimeError "chunk or broadcast failure in translation matrix")

/-- Embedding of `_compute_scaling_matrix`: zero angle, delegate to
`get_rotation_matrix2d`. -/
def _compute_scaling_matrix (scale center : Tensor) : Tensor :=
  get_rotation_matrix2d center (zeros_like scale) scale

/-- Embedding of `affine`: unsqueeze a rank-3 input into a batch of size 1,
expand the matrix to the (batched) input's `shape[0]`, warp with output size
equal to the input's own trailing (H, W), and squeeze the inserted batch
dimension back out. -/
def affine (tensor matrix : Tensor) : Except PyErr Tensor :=
  let t := if tensor.shape.length = 3 then unsqueeze0 tensor else tensor
  (shape0 t).bind fun b =>
  (matrix.expand [(b : ℤ), -1, -1]).map fun m =>
    let warped := warp_affine t m
      (t.shape.getD (t.shape.length - 2) 0, t.shape.getD (t.shape.length - 1) 0)
    if tensor.shape.length = 3 then squeeze0 warped else warped

/-- Embedding of the `if center is None: center = _compute_tensor_center(tensor)`
default; an explicitly passed center is used as given (its type is only
exercised later, at its `.expand` call). -/
def resolveCenter (tensor : Tensor) (centerV : Option PyVal) : Except PyErr PyVal :=
  match centerV with
  | none => (_compute_tensor_center tensor).map PyVal.tensor
  | some c => .ok c

/-- Calling `.expand` on a dynamically typed value: an AttributeError when the
value is not a tensor. -/
def pvExpand (v : PyVal) (sizes : List ℤ) : Except PyErr Tensor :=
  match v with
  | .tensor t => t.expand sizes
  | .other ty => .error (.attributeError ty)

/-- Embedding of `rotate`.  Note the source's third check tests
`torch.is_tensor(angle)` — the angle, not the center — so inside the branch
where the angle is already known to be a tensor the condition is vacuous. -/
def rotate (tensorV angleV : PyVal) (centerV : Option PyVal) : Except PyErr Tensor :=
  match tensorV with
  | .other ty => .error (.typeError "tensor" ty)
  | .tensor tensor =>
    match angleV with
    | .other ty => .error (.typeError "angle" ty)
    | .tensor angle =>
      if centerV.isSome ∧ is_tensor (.tensor angle) = false then
        .error (.typeError "center" (pyTypeName (centerV.getD (.other "NoneType"))))
      else if tensor.shape.length = 3 ∨ tensor.shape.length = 4 then
        (resolveCenter tensor centerV).bind fun center =>
        (shape0 tensor).bind fun b =>
        (angle.expand [(b : ℤ)]).bind fun angleE =>
        (pvExpand center [(b : ℤ), -1]).bind fun centerE =>
        affine tensor (sliceLast23 (_compute_rotation_matrix angleE centerE))
      else .error (.shapeError tensor.shape)

/-- Embedding of `translate`. -/
def translate (tensorV translationV : PyVal) : Except PyErr Tensor :=
  match tensorV with
  | .other ty => .error (.typeError "tensor" ty)
  | .tensor tensor =>
    match translationV with
    | .other ty => .error (.typeError "translation" ty)
    | .tensor translation =>
      if tensor.shape.length = 3 ∨ tensor.shape.length = 4 then
        (_compute_translation_matrix translation).bind fun m =>
        affine tensor (sliceLast23 m)
      else .error (.shapeError tensor.shape)

/-- Embedding of `scale`.  Unlike `rotate` and `translate` it performs no rank
validation on `tensor`. -/
def scale (tensorV scaleFactorV : PyVal) (centerV : Option PyVal) : Except PyErr Tensor :=
  match tensorV with
  | .other ty => .error (.typeError "tensor" ty)
  | .tensor tensor =>
    match scaleFactorV with
    | .other ty => .error (.typeError "scale_factor" ty)
    | .tensor scale_factor =>
      (resolveCenter tensor centerV).bind fun center =>
      (shape0 tensor).bind fun b =>
      (pvExpand center [(b : ℤ), -1]).bind fun centerE =>
      (scale_factor.expand [(b : ℤ)]).bind fun scaleE =>
      affine tensor (sliceLast23 (_compute_scaling_matrix scaleE centerE))

/-- Embedding of `torch.Tensor.item`: succeeds exactly on one-element tensors. -/
def Tensor.item (t : Tensor) : Except PyErr ℚ :=
  if t.shape.prod = 1 then .ok (flatGet t 0)
  else .error (.valueError "only one element tensors can be converted to Python scalars")

/-- Calling `.item()` on a dynamically typed value. -/
def pvItem (v : PyVal) : Except PyErr ℚ :=
  match v with
  | .tensor t => t.item
  | .other ty => .error (.attributeError ty)

/-- Text form of a Python value, as interpolated into a repr string. -/
def pyvalStr : PyVal → String
  | .tensor t => "tensor(" ++ toString t.data ++ ")"
  | .other ty => "<" ++ ty ++ ">"

/-- Text form of an optional Python value (`None` when absent). -/
def optPyStr : Option PyVal → String
  | none => "None"
  | some v => pyvalStr v

/-- Embedding of the `Rotate` module: stores its construction arguments
verbatim, with no validation. -/
structure Rotate where
  angle : PyVal
  center : Option PyVal

/-- Embedding of `Rotate.forward`. -/
def Rotate.forward (self : Rotate) (input : PyVal) : Except PyErr Tensor :=
  rotate input self.angle self.center

/-- Embedding of `Rotate.__repr__`: interpolates `self.angle.item()`, so it
raises unless the bound angle is a one-element tensor. -/
def Rotate.reprStr (self : Rotate) : Except PyErr String :=
  (pvItem self.angle).map fun a =>
    "Rotate(angle=" ++ toString a ++ ", center=" ++ optPyStr self.center ++ ")"

/-- Embedding of the `Translate` module: stores its construction argument
verbatim, with no validation. -/
structure Translate where
  translation : PyVal

/-- Embedding of `Translate.forward`. -/
def Translate.forward (self : Translate) (input : PyVal) : Except PyErr Tensor :=
  translate input self.translation

/-- Embedding of `Translate.__repr__`: formats the bound translation directly. -/
def Translate.reprStr (self : Translate) : Except PyErr String :=
  .ok ("Translate(translation=" ++ pyvalStr self.translation ++ ")")

/-- Embedding of the `Scale` module: stores its construction arguments
verbatim, with no validation. -/
structure Scale where
  scale_factor : PyVal
  center : Option PyVal

/-- Embedding of `Scale.forward`. -/
def Scale.forward (self : Scale) (input : PyVal) : Except PyErr Tensor :=
  scale input self.scale_factor self.center

/-- Embedding of `Scale.__repr__`: formats the bound parameters directly. -/
def Scale.reprStr (self : Scale) : Except PyErr String :=
  .ok ("Scale(scale_factor=" ++ pyvalStr self.scale_factor ++ ", center=" ++
    optPyStr self.center ++ ")")

/-- Is an `Except` result a success? -/
def isOkE {α : Type} : Except PyErr α → Bool
  | .ok _ => true
  | .error _ => false

/-- Is a result the module's own shape `ValueError`? -/
def isShapeErr : Except PyErr Tensor → Bool
  | .error (.shapeError _) => true
  | _ => false

/-- Is a result the (dead) center `TypeError` of `rotate`? -/
def isCenterTypeErr : Except PyErr Tensor → Bool
  | .error (.typeError arg _) => arg == "center"
  | _ => false

/-- A 0-dimensional scalar tensor holding 0, as in `rotate(tensor, torch.tensor(0.))`. -/
def angleZero : Tensor := ⟨[], [0], 0, 0⟩

/-- A single-channel unbatched 2x2 image. -/
def imgCHW : Tensor := ⟨[1, 2, 2], [1, 2, 3, 4], 0, 0⟩

/-- A batched single-channel 2x2 image. -/
def imgBCHW : Tensor := ⟨[1, 1, 2, 2], [1, 2, 3, 4], 0, 0⟩

/-- A two-channel unbatched 1x1 image (channel count 2). -/
def imgTwoChan11 : Tensor := ⟨[2, 1, 1], [5, 6], 0, 0⟩

/-- A two-channel unbatched 2x2 image (channel count 2). -/
def imgTwoChan22 : Tensor := ⟨[2, 2, 2], [1, 2, 3, 4, 5, 6, 7, 8], 0, 0⟩

/-- A rank-2 tensor, rejected by the rank validation. -/
def imgRank2 : Tensor := ⟨[2, 2], [1, 2, 3, 4], 0, 0⟩

/-- A single-image 2x3 identity warp matrix batch. -/
def eye23 : Tensor := ⟨[1, 2, 3], [1, 0, 0, 0, 1, 0], 0, 0⟩

/-- A 5x5 single-channel image (data irrelevant to center computation). -/
def img55 : Tensor := ⟨[1, 5, 5], [], 7, 3⟩

/-- The (1, 2)-shaped translation `[[3, -2]]` of the spec's test. -/
def trans32 : Tensor := ⟨[1, 2], [3, -2], 5, 6⟩

/-! Helper lemmas. -/

/-- Reading a freshly generated data list at an in-range index yields the
generating function. -/
lemma rangeMap_getD (f : Nat → ℚ) (n i : Nat) (h : i < n) :
    ((List.range n).map f).getD i 0 = f i := by
  rw [List.getD_eq_getElem?_getD, List.getElem?_map, List.getElem?_range h]
  rfl

/-! Claim C9: the wrapper modules store their parameters verbatim at
construction (no validation) and invocation delegates to the free operation. -/

/-- C9: `Rotate`, `Translate` and `Scale` validate nothing at construction —
they store their (arbitrary, possibly non-tensor) parameters verbatim — and
invoking them returns exactly the corresponding free operation applied to the
stored parameters plus the new image argument. -/
theorem wrapper_modules_delegate (a : PyVal) (c : Option PyVal) (trv sfv : PyVal)
    (cc : Option PyVal) (img : PyVal) :
    ((Rotate.mk a c).angle = a ∧ (Rotate.mk a c).center = c ∧
      (Rotate.mk a c).forward img = rotate img a c) ∧
    ((Translate.mk trv).translation = trv ∧
      (Translate.mk trv).forward img = translate img trv) ∧
    ((Scale.mk sfv cc).scale_factor = sfv ∧ (Scale.mk sfv cc).center = cc ∧
      (Scale.mk sfv cc).forward img = scale img sfv cc) :=
  ⟨⟨rfl, rfl, rfl⟩, ⟨rfl, rfl⟩, ⟨rfl, rfl, rfl⟩⟩

/-! Claim C10: `Rotate.__repr__` calls `.item()` on the bound angle, so it
succeeds exactly when the angle is a one-element tensor; `Translate` and
`Scale` format their parameters directly and always succeed. -/

/-- C10: producing `Rotate`'s text representation succeeds iff the bound angle
is a tensor with exactly one element (and never for a non-tensor angle),
whereas `Translate`'s and `Scale`'s representations always succeed. -/
theorem repr_item_one_element_restriction (t : Tensor) (c cc : Option PyVal)
    (s : String) (trv sfv : PyVal) :
    isOkE ((Rotate.mk (.tensor t) c).reprStr) = decide (t.shape.prod = 1) ∧
    isOkE ((Rotate.mk (.other s) c).reprStr) = false ∧
    isOkE ((Translate.mk trv).reprStr) = true ∧
    isOkE ((Scale.mk sfv cc).reprStr) = true := by
  refine ⟨?_, rfl, rfl, rfl⟩
  by_cases h : t.shape.prod = 1 <;>
    simp [Rotate.reprStr, pvItem, Tensor.item, isOkE, Except.map, h]

/-! Claim C2 (code bug): for a rank-3 CxHxW input, `rotate` expands the angle
(and center) to `tensor.shape[0]`, which is the channel count C, not 1; the
resulting batch-C matrix then fails to broadcast inside `affine`. -/

/-- C2: at the failing input (a two-channel 1x1 image with scalar angle 0) the
code expands the angle to the channel count `tensor.shape[0] = 2` — shape
`[2]`, not the batch size 1 the claim asserts — and the resulting batch-2
rotation matrix makes `rotate` fail in `affine`'s matrix broadcast. -/
theorem rotate_expand_uses_channel_count :
    (angleZero.expand [((imgTwoChan11.shape.getD 0 0 : Nat) : ℤ)]).map Tensor.shape =
      .ok [2] ∧
    rotate (.tensor imgTwoChan11) (.tensor angleZero) none =
      .error (.runtimeError
        "The expanded size of the tensor (1) must match the existing size (2)") :=
  ⟨rfl, rfl⟩

/-! Claim C8 (code bug): rotation by angle 0 should be the identity on every
valid image tensor, but on a documented CxHxW input with C > 1 the code
crashes in the matrix broadcast instead of returning the input. -/

/-- C8: at the failing input (a two-channel 2x2 CxHxW image, a shape the
code's own docstring and error message accept), `rotate` by angle 0 raises a
broadcast RuntimeError instead of returning the input — while the same call
on a single-channel CxHxW image succeeds. -/
theorem rotate_zero_fails_on_multichannel_chw :
    rotate (.tensor imgTwoChan22) (.tensor angleZero) none =
      .error (.runtimeError
        "The expanded size of the tensor (1) must match the existing size (2)") ∧
    isOkE (rotate (.tensor imgCHW) (.tensor angleZero) none) = true :=
  ⟨rfl, rfl⟩

/-! Claim C4: the default center is ((W-1)/2, (H-1)/2), dtype/device of the
input, and that is exactly what `rotate`/`scale` resolve when no center is
given. -/

/-- C4: for every tensor whose shape ends in spatial dimensions (H, W),
`_compute_tensor_center` returns the single 2-vector
((W-1)/2, (H-1)/2) with the input's dtype and device, and the default-center
resolution used by `rotate` and `scale` produces precisely that tensor. -/
theorem tensor_center_formula (t : Tensor) (pre : List Nat) (hgt wdt : Nat)
    (hs : t.shape = pre ++ [hgt, wdt]) :
    _compute_tensor_center t =
      .ok ⟨[2], [((wdt : ℚ) - 1) / 2, ((hgt : ℚ) - 1) / 2], t.dtype, t.device⟩ ∧
    resolveCenter t none =
      .ok (.tensor ⟨[2], [((wdt : ℚ) - 1) / 2, ((hgt : ℚ) - 1) / 2], t.dtype, t.device⟩) := by
  have h1 : t.shape.drop (t.shape.length - 2) = [hgt, wdt] := by
    rw [hs]
    have h2 : (pre ++ [hgt, wdt]).length - 2 = pre.length := by simp
    rw [h2]
    exact List.drop_left pre [hgt, wdt]
  constructor
  · unfold _compute_tensor_center
    rw [h1]
  · unfold resolveCenter _compute_tensor_center
    rw [h1]
    rfl

/-- C4 witness: on a 5x5 image with no explicit center the pivot resolved for
`rotate`/`scale` is (2.0, 2.0), with the image's dtype and device. -/
theorem tensor_center_formula_witness :
    _compute_tensor_center img55 = .ok ⟨[2], [2, 2], 7, 3⟩ ∧
    resolveCenter img55 none = .ok (.tensor ⟨[2], [2, 2], 7, 3⟩) := by
  have h := tensor_center_formula img55 [1] 5 5 rfl
  constructor
  · rw [h.1]
    norm_num [img55]
  · rw [h.2]
    norm_num [img55]

/-! Claim C3: the translation matrix builder produces, for a (B, 2)
translation, a batch of B 3x3 matrices equal to the identity except for
entries (0,2) = dx and (1,2) = dy. -/

/-- C3: for every translation tensor of shape (B, 2), the builder returns a
batch of B 3x3 matrices whose (r, c) entry is dx at (0, 2), dy at (1, 2), and
the identity's entry everywhere else (1 on the diagonal, 0 off it; bottom row
[0, 0, 1]). -/
theorem translation_matrix_entries (b k r c : Nat) (tr : Tensor)
    (htr : tr.shape = [b, 2]) (hk : k < b) (hr : r < 3) (hc : c < 3) :
    (_compute_translation_matrix tr).map Tensor.shape = .ok [b, 3, 3] ∧
    (_compute_translation_matrix tr).map (fun m => flatGet m ((k * 3 + r) * 3 + c)) =
      .ok (if r = 0 ∧ c = 2 then flatGet tr (k * 2)
           else if r = 1 ∧ c = 2 then flatGet tr (k * 2 + 1)
           else if r = c then 1 else 0) := by
  unfold _compute_translation_matrix
  rw [htr]
  refine ⟨rfl, ?_⟩
  have hb : (k * 3 + r) * 3 + c < b * 3 * 3 := by omega
  simp only [Except.map, flatGet]
  rw [rangeMap_getD _ _ _ hb]
  have e1 : ((k * 3 + r) * 3 + c) / 3 / 3 = k := by omega
  have e2 : ((k * 3 + r) * 3 + c) / 3 % 3 = r := by omega
  have e3 : ((k * 3 + r) * 3 + c) % 3 = c := by omega
  rw [e2, e3, e1]
  interval_cases r <;> interval_cases c <;> simp

/-- C3 witness: for `translation = [[3, -2]]` the constructed matrix's third
column (first two rows) is [3, -2], the diagonal is 1, an off-diagonal sample
is 0, and the bottom row ends in 1, with batch shape [1, 3, 3]. -/
theorem translation_matrix_entries_witness :
    (_compute_translation_matrix trans32).map Tensor.shape = .ok [1, 3, 3] ∧
    (_compute_translation_matrix trans32).map (fun m => flatGet m 2) = .ok 3 ∧
    (_compute_translation_matrix trans32).map (fun m => flatGet m 5) = .ok (-2) ∧
    (_compute_translation_matrix trans32).map (fun m => flatGet m 0) = .ok 1 ∧
    (_compute_translation_matrix trans32).map (fun m => flatGet m 1) = .ok 0 ∧
    (_compute_translation_matrix trans32).map (fun m => flatGet m 8) = .ok 1 := by
  refine ⟨(translation_matrix_entries 1 0 0 0 trans32 rfl (by omega) (by omega) (by omega)).1,
    ?_, ?_, ?_, ?_, ?_⟩
  · have h := (translation_matrix_entries 1 0 0 2 trans32 rfl (by omega) (by omega)
      (by omega)).2
    simpa using h
  · have h := (translation_matrix_entries 1 0 1 2 trans32 rfl (by omega) (by omega)
      (by omega)).2
    simpa using h
  · have h := (translation_matrix_entries 1 0 0 0 trans32 rfl (by omega) (by omega)
      (by omega)).2
    simpa using h
  · have h := (translation_matrix_entries 1 0 0 1 trans32 rfl (by omega) (by omega)
      (by omega)).2
    simpa using h
  · have h := (translation_matrix_entries 1 0 2 2 trans32 rfl (by omega) (by omega)
      (by omega)).2
    simpa using h

/-! Error classification: every failure of a torch primitive or of the
delegated matrix machinery is a `delegated` error — never the module's own
`TypeError`s or its shape `ValueError`. -/

/-- Failures of `resolveDims` are delegated (broadcast RuntimeErrors). -/
lemma resolveDims_delegated (cs : List Nat) (ss : List ℤ) (e : PyErr)
    (h : resolveDims cs ss = .error e) : e.delegated = true := by
  induction cs generalizing ss e with
  | nil => simp [resolveDims] at h
  | cons c cs ih =>
    cases ss with
    | nil =>
      simp only [resolveDims, Except.error.injEq] at h
      rw [← h]
      rfl
    | cons s ss =>
      simp only [resolveDims] at h
      split at h
      · cases hr : resolveDims cs ss with
        | ok v => rw [hr] at h; simp [Except.map] at h
        | error e2 =>
          rw [hr] at h
          simp only [Except.map, Except.error.injEq] at h
          exact h ▸ ih ss e2 hr
      · split at h
        · cases hr : resolveDims cs ss with
          | ok v => rw [hr] at h; simp [Except.map] at h
          | error e2 =>
            rw [hr] at h
            simp only [Except.map, Except.error.injEq] at h
            exact h ▸ ih ss e2 hr
        · simp only [Except.error.injEq] at h
          rw [← h]
          rfl

/-- Failures of `Tensor.expand` are delegated (RuntimeErrors). -/
lemma expand_delegated (t : Tensor) (sizes : List ℤ) (e : PyErr)
    (h : t.expand sizes = .error e) : e.delegated = true := by
  unfold Tensor.expand at h
  split at h
  · simp only [Except.error.injEq] at h
    rw [← h]
    rfl
  · split at h
    · simp only [Except.error.injEq] at h
      rw [← h]
      rfl
    · cases hr : resolveDims t.shape (sizes.drop (sizes.length - t.shape.length)) with
      | ok v => rw [hr] at h; simp [Except.map] at h
      | error e2 =>
        rw [hr] at h
        simp only [Except.map, Except.error.injEq] at h
        exact h ▸ resolveDims_delegated _ _ e2 hr

/-- Failures of `tensor.shape[0]` are delegated (IndexErrors). -/
lemma shape0_delegated (t : Tensor) (e : PyErr) (h : shape0 t = .error e) :
    e.delegated = true := by
  unfold shape0 at h
  split at h
  · simp only [Except.error.injEq] at h
    rw [← h]
    rfl
  · simp at h

/-- Failures of `_compute_tensor_center` are delegated (unpacking ValueErrors). -/
lemma center_compute_delegated (t : Tensor) (e : PyErr)
    (h : _compute_tensor_center t = .error e) : e.delegated = true := by
  unfold _compute_tensor_center at h
  split at h
  · simp at h
  · simp only [Except.error.injEq] at h
    rw [← h]
    rfl

/-- Failures of the center-defaulting step are delegated. -/
lemma resolveCenter_delegated (t : Tensor) (cv : Option PyVal) (e : PyErr)
    (h : resolveCenter t cv = .error e) : e.delegated = true := by
  cases cv with
  | none =>
    unfold resolveCenter at h
    cases hr : _compute_tensor_center t with
    | ok v => rw [hr] at h; simp [Except.map] at h
    | error e2 =>
      rw [hr] at h
      simp only [Except.map, Except.error.injEq] at h
      exact h ▸ center_compute_delegated t e2 hr
  | some c => simp [resolveCenter] at h

/-- Failures of `.expand` on a dynamic value are delegated (AttributeErrors or
broadcast RuntimeErrors). -/
lemma pvExpand_delegated (v : PyVal) (sizes : List ℤ) (e : PyErr)
    (h : pvExpand v sizes = .error e) : e.delegated = true := by
  cases v with
  | tensor t => exact expand_delegated t sizes e h
  | other ty =>
    simp only [pvExpand, Except.error.injEq] at h
    rw [← h]
    rfl

/-- Failures of the translation-matrix builder are delegated. -/
lemma translation_matrix_delegated (tr : Tensor) (e : PyErr)
    (h : _compute_translation_matrix tr = .error e) : e.delegated = true := by
  unfold _compute_translation_matrix at h
  split at h
  · simp at h
  · simp only [Except.error.injEq] at h
    rw [← h]
    rfl

/-- Failures of `affine` are delegated: they come from `tensor.shape[0]` or
from the matrix broadcast, never from a raise in `affine` itself. -/
lemma affine_delegated (t m : Tensor) (e : PyErr) (h : affine t m = .error e) :
    e.delegated = true := by
  simp only [affine] at h
  cases hs : shape0 (if t.shape.length = 3 then unsqueeze0 t else t) with
  | ok b =>
    rw [hs] at h
    simp only [Except.bind] at h
    cases he : m.expand [(b : ℤ), -1, -1] with
    | ok mE => rw [he] at h; simp [Except.map] at h
    | error e2 =>
      rw [he] at h
      simp only [Except.map, Except.error.injEq] at h
      exact h ▸ expand_delegated m _ e2 he
  | error e2 =>
    rw [hs] at h
    simp only [Except.bind, Except.error.injEq] at h
    exact h ▸ shape0_delegated _ e2 hs

/-- Any failure of `rotate` on tensor-typed tensor and angle arguments is
either the module's rank `ValueError` (with the offending shape, and only when
the rank is outside 3, 4) or a delegated error. -/
lemma rotate_tensor_err (t a : Tensor) (cv : Option PyVal) (e : PyErr)
    (h : rotate (.tensor t) (.tensor a) cv = .error e) :
    (e = .shapeError t.shape ∧ ¬(t.shape.length = 3 ∨ t.shape.length = 4)) ∨
    e.delegated = true := by
  have hcond : ¬(cv.isSome = true ∧ is_tensor (PyVal.tensor a) = false) := by
    simp [is_tensor]
  simp only [rotate] at h
  rw [if_neg hcond] at h
  split at h
  · cases hr : resolveCenter t cv with
    | error e2 =>
      rw [hr] at h
      simp only [Except.bind, Except.error.injEq] at h
      exact Or.inr (h ▸ resolveCenter_delegated t cv e2 hr)
    | ok center =>
      rw [hr] at h
      simp only [Except.bind] at h
      cases hb : shape0 t with
      | error e2 =>
        rw [hb] at h
        simp only [Except.bind, Except.error.injEq] at h
        exact Or.inr (h ▸ shape0_delegated t e2 hb)
      | ok b =>
        rw [hb] at h
        simp only [Except.bind] at h
        cases ha : a.expand [(b : ℤ)] with
        | error e2 =>
          rw [ha] at h
          simp only [Except.bind, Except.error.injEq] at h
          exact Or.inr (h ▸ expand_delegated a _ e2 ha)
        | ok aE =>
          rw [ha] at h
          simp only [Except.bind] at h
          cases hc : pvExpand center [(b : ℤ), -1] with
          | error e2 =>
            rw [hc] at h
            simp only [Except.bind, Except.error.injEq] at h
            exact Or.inr (h ▸ pvExpand_delegated center _ e2 hc)
          | ok cE =>
            rw [hc] at h
            simp only [Except.bind] at h
            exact Or.inr (affine_delegated _ _ e h)
  · simp only [Except.error.injEq] at h
    rename_i hn
    exact Or.inl ⟨h.symm, hn⟩

/-- Any failure of `translate` on tensor-typed arguments is either the
module's rank `ValueError` (only when the rank is outside 3, 4) or a delegated
error. -/
lemma translate_tensor_err (t tr : Tensor) (e : PyErr)
    (h : translate (.tensor t) (.tensor tr) = .error e) :
    (e = .shapeError t.shape ∧ ¬(t.shape.length = 3 ∨ t.shape.length = 4)) ∨
    e.delegated = true := by
  simp only [translate] at h
  split at h
  · cases hm : _compute_translation_matrix tr with
    | error e2 =>
      rw [hm] at h
      simp only [Except.bind, Except.error.injEq] at h
      exact Or.inr (h ▸ translation_matrix_delegated tr e2 hm)
    | ok m =>
      rw [hm] at h
      simp only [Except.bind] at h
      exact Or.inr (affine_delegated _ _ e h)
  · simp only [Except.error.injEq] at h
    rename_i hn
    exact Or.inl ⟨h.symm, hn⟩

/-- Any failure of `scale` on tensor-typed tensor and scale-factor arguments
is a delegated error: `scale` has no rank check at all. -/
lemma scale_tensor_err (t sf : Tensor) (cv : Option PyVal) (e : PyErr)
    (h : scale (.tensor t) (.tensor sf) cv = .error e) : e.delegated = true := by
  simp only [scale] at h
  cases hr : resolveCenter t cv with
  | error e2 =>
    rw [hr] at h
    simp only [Except.bind, Except.error.injEq] at h
    exact h ▸ resolveCenter_delegated t cv e2 hr
  | ok center =>
    rw [hr] at h
    simp only [Except.bind] at h
    cases hb : shape0 t with
    | error e2 =>
      rw [hb] at h
      simp only [Except.bind, Except.error.injEq] at h
      exact h ▸ shape0_delegated t e2 hb
    | ok b =>
      rw [hb] at h
      simp only [Except.bind] at h
      cases hc : pvExpand center [(b : ℤ), -1] with
      | error e2 =>
        rw [hc] at h
        simp only [Except.bind, Except.error.injEq] at h
        exact h ▸ pvExpand_delegated center _ e2 hc
      | ok cE =>
        rw [hc] at h
        simp only [Except.bind] at h
        cases hsf : sf.expand [(b : ℤ)] with
        | error e2 =>
          rw [hsf] at h
          simp only [Except.bind, Except.error.injEq] at h
          exact h ▸ expand_delegated sf _ e2 hsf
        | ok sE =>
          rw [hsf] at h
          simp only [Except.bind] at h
          exact affine_delegated _ _ e h

/-! Claim C5: `rotate`'s center type-check tests `angle`, not `center`, so
whenever the angle is a tensor the center `TypeError` branch is unreachable,
no matter what the center is. -/

/-- C5: for every call to `rotate` whose angle argument is a tensor, the
result is never the center `TypeError`, regardless of the actual types of the
tensor and center arguments (the buggy check tests the angle's type). -/
theorem rotate_center_typecheck_tests_angle (tv av : PyVal) (cv : Option PyVal)
    (hav : is_tensor av = true) :
    isCenterTypeErr (rotate tv av cv) = false := by
  cases av with
  | other ty => simp [is_tensor] at hav
  | tensor a =>
    cases tv with
    | other ty => rfl
    | tensor t =>
      cases hs : rotate (.tensor t) (.tensor a) cv with
      | ok v => rfl
      | error e =>
        rcases rotate_tensor_err t a cv e hs with ⟨he, _⟩ | hd
        · rw [he]
          rfl
        · cases e <;> simp_all [isCenterTypeErr, PyErr.delegated]

/-- C5 witness: with a tensor angle and a deliberately non-tensor center, the
center `TypeError` branch is not taken. -/
theorem rotate_center_typecheck_tests_angle_witness :
    is_tensor (.tensor angleZero) = true ∧
    isCenterTypeErr (rotate (.tensor imgBCHW) (.tensor angleZero)
      (some (.other "tuple"))) = false :=
  ⟨rfl, rotate_center_typecheck_tests_angle (.tensor imgBCHW) (.tensor angleZero)
    (some (.other "tuple")) rfl⟩

/-! Claim C6: `scale` performs no rank validation: on tensor-typed arguments
it never raises the shape `ValueError` that `rotate` and `translate` raise. -/

/-- C6: for every pair of tensor-typed arguments and any center, `scale` never
produces the rank-validation shape `ValueError`, whatever the input tensor's
rank. -/
theorem scale_never_raises_shape_error (t sf : Tensor) (cv : Option PyVal) :
    isShapeErr (scale (.tensor t) (.tensor sf) cv) = false := by
  cases hs : scale (.tensor t) (.tensor sf) cv with
  | ok v => rfl
  | error e =>
    have hd := scale_tensor_err t sf cv e hs
    cases e <;> simp_all [isShapeErr, PyErr.delegated]

/-! Claim C7: `rotate` and `translate` validate the tensor rank: rank outside
set 3, 4 raises the shape `ValueError` carrying the offending shape, before
any matrix construction or warping; ranks 3 and 4 pass the check. -/

/-- C7: for tensor-typed arguments, if the image rank is outside the accepted
set then `rotate` and `translate` both return exactly the shape `ValueError`
carrying the offending shape — independently of the other arguments, i.e.
before any matrix construction or warping — while for rank-3 and rank-4
inputs the shape error can never be produced. -/
theorem rotate_translate_rank_validation (t a tr : Tensor) (cv : Option PyVal) :
    (¬(t.shape.length = 3 ∨ t.shape.length = 4) →
      rotate (.tensor t) (.tensor a) cv = .error (.shapeError t.shape) ∧
      translate (.tensor t) (.tensor tr) = .error (.shapeError t.shape)) ∧
    ((t.shape.length = 3 ∨ t.shape.length = 4) →
      isShapeErr (rotate (.tensor t) (.tensor a) cv) = false ∧
      isShapeErr (translate (.tensor t) (.tensor tr)) = false) := by
  constructor
  · intro hn
    have hcond : ¬(cv.isSome = true ∧ is_tensor (PyVal.tensor a) = false) := by
      simp [is_tensor]
    constructor
    · simp only [rotate]
      rw [if_neg hcond, if_neg hn]
    · simp only [translate]
      rw [if_neg hn]
  · intro h34
    constructor
    · cases hs : rotate (.tensor t) (.tensor a) cv with
      | ok v => rfl
      | error e =>
        rcases rotate_tensor_err t a cv e hs with ⟨_, hn⟩ | hd
        · exact absurd h34 hn
        · cases e <;> simp_all [isShapeErr, PyErr.delegated]
    · cases hs : translate (.tensor t) (.tensor tr) with
      | ok v => rfl
      | error e =>
        rcases translate_tensor_err t tr e hs with ⟨_, hn⟩ | hd
        · exact absurd h34 hn
        · cases e <;> simp_all [isShapeErr, PyErr.delegated]

/-- C7 witness: a rank-2 image is rejected by both operations with the shape
error carrying its shape, and a rank-4 image passes the check. -/
theorem rotate_translate_rank_validation_witness :
    rotate (.tensor imgRank2) (.tensor angleZero) none =
      .error (.shapeError [2, 2]) ∧
    translate (.tensor imgRank2) (.tensor trans32) =
      .error (.shapeError [2, 2]) ∧
    isShapeErr (rotate (.tensor imgBCHW) (.tensor angleZero) none) = false := by
  refine ⟨?_, ?_, ?_⟩
  · exact ((rotate_translate_rank_validation imgRank2 angleZero trans32 none).1
      (by decide)).1
  · exact ((rotate_translate_rank_validation imgRank2 angleZero trans32 none).1
      (by decide)).2
  · exact ((rotate_translate_rank_validation imgBCHW angleZero trans32 none).2
      (Or.inr rfl)).1

/-- A list of length 4 is a four-element literal. -/
lemma len_four {α : Type} {l : List α} (h : l.length = 4) :
    ∃ a b c d, l = [a, b, c, d] := by
  cases l with
  | nil => simp at h
  | cons a l1 =>
    cases l1 with
    | nil => simp at h
    | cons b l2 =>
      cases l2 with
      | nil => simp at h
      | cons c l3 =>
        cases l3 with
        | nil => simp at h
        | cons d l4 =>
          cases l4 with
          | nil => exact ⟨a, b, c, d, rfl⟩
          | cons e l5 => simp at h

/-- Unfolding of `affine` on an unbatched CxHxW input: wrap into a batch of
size 1, expand the matrix to batch 1, warp with the input's own (H, W), and
squeeze the inserted batch dimension back out. -/
lemma affine_rank3_eq (t m : Tensor) (c0 h0 w0 : Nat) (hs : t.shape = [c0, h0, w0]) :
    affine t m = (m.expand [(1 : ℤ), -1, -1]).map fun mE =>
      squeeze0 (warp_affine (unsqueeze0 t) mE (h0, w0)) := by
  simp [affine, hs, unsqueeze0, shape0, Except.bind]

/-- Unfolding of `affine` on a batched BxCxHxW input: expand the matrix to
batch B and warp with the input's own (H, W). -/
lemma affine_rank4_eq (t m : Tensor) (b0 c0 h0 w0 : Nat)
    (hs : t.shape = [b0, c0, h0, w0]) :
    affine t m = (m.expand [(b0 : ℤ), -1, -1]).map fun mE =>
      warp_affine t mE (h0, w0) := by
  simp [affine, hs, shape0, Except.bind]

/-- Whenever `affine` returns on a rank-3 or rank-4 input, the output shape is
exactly the input shape. -/
lemma affine_ok_shape (t m out : Tensor)
    (h34 : t.shape.length = 3 ∨ t.shape.length = 4)
    (h : affine t m = .ok out) : out.shape = t.shape := by
  rcases h34 with h3 | h4
  · obtain ⟨c0, h0, w0, hs⟩ := List.length_eq_three.mp h3
    rw [affine_rank3_eq t m c0 h0 w0 hs] at h
    cases he : m.expand [(1 : ℤ), -1, -1] with
    | error e => rw [he] at h; simp [Except.map] at h
    | ok mE =>
      rw [he] at h
      simp only [Except.map, Except.ok.injEq] at h
      rw [← h, hs]
      simp [squeeze0, warp_affine, unsqueeze0, hs]
  · obtain ⟨b0, c0, h0, w0, hs⟩ := len_four h4
    rw [affine_rank4_eq t m b0 c0 h0 w0 hs] at h
    cases he : m.expand [(b0 : ℤ), -1, -1] with
    | error e => rw [he] at h; simp [Except.map] at h
    | ok mE =>
      rw [he] at h
      simp only [Except.map, Except.ok.injEq] at h
      rw [← h, hs]
      simp [warp_affine, hs]

/-- A successful `rotate` on tensor-typed arguments is a successful `affine`
on the input tensor. -/
lemma rotate_ok_affine (t a : Tensor) (cv : Option PyVal) (out : Tensor)
    (h : rotate (.tensor t) (.tensor a) cv = .ok out) :
    ∃ mm, affine t mm = .ok out := by
  have hcond : ¬(cv.isSome = true ∧ is_tensor (PyVal.tensor a) = false) := by
    simp [is_tensor]
  simp only [rotate] at h
  rw [if_neg hcond] at h
  split at h
  · cases hr : resolveCenter t cv with
    | error e2 => rw [hr] at h; simp [Except.bind] at h
    | ok center =>
      rw [hr] at h
      simp only [Except.bind] at h
      cases hb : shape0 t with
      | error e2 => rw [hb] at h; simp [Except.bind] at h
      | ok b =>
        rw [hb] at h
        simp only [Except.bind] at h
        cases ha : a.expand [(b : ℤ)] with
        | error e2 => rw [ha] at h; simp [Except.bind] at h
        | ok aE =>
          rw [ha] at h
          simp only [Except.bind] at h
          cases hc : pvExpand center [(b : ℤ), -1] with
          | error e2 => rw [hc] at h; simp [Except.bind] at h
          | ok cE =>
            rw [hc] at h
            simp only [Except.bind] at h
            exact ⟨_, h⟩
  · simp at h

/-- A successful `translate` on tensor-typed arguments is a successful
`affine` on the input tensor. -/
lemma translate_ok_affine (t tr : Tensor) (out : Tensor)
    (h : translate (.tensor t) (.tensor tr) = .ok out) :
    ∃ mm, affine t mm = .ok out := by
  simp only [translate] at h
  split at h
  · cases hm : _compute_translation_matrix tr with
    | error e2 => rw [hm] at h; simp [Except.bind] at h
    | ok m =>
      rw [hm] at h
      simp only [Except.bind] at h
      exact ⟨_, h⟩
  · simp at h

/-- A successful `scale` on tensor-typed arguments is a successful `affine`
on the input tensor. -/
lemma scale_ok_affine (t sf : Tensor) (cv : Option PyVal) (out : Tensor)
    (h : scale (.tensor t) (.tensor sf) cv = .ok out) :
    ∃ mm, affine t mm = .ok out := by
  simp only [scale] at h
  cases hr : resolveCenter t cv with
  | error e2 => rw [hr] at h; simp [Except.bind] at h
  | ok center =>
    rw [hr] at h
    simp only [Except.bind] at h
    cases hb : shape0 t with
    | error e2 => rw [hb] at h; simp [Except.bind] at h
    | ok b =>
      rw [hb] at h
      simp only [Except.bind] at h
      cases hc : pvExpand center [(b : ℤ), -1] with
      | error e2 => rw [hc] at h; simp [Except.bind] at h
      | ok cE =>
        rw [hc] at h
        simp only [Except.bind] at h
        cases hsf : sf.expand [(b : ℤ)] with
        | error e2 => rw [hsf] at h; simp [Except.bind] at h
        | ok sE =>
          rw [hsf] at h
          simp only [Except.bind] at h
          exact ⟨_, h⟩

/-! Claim C1: `affine` (and hence `rotate`, `translate`, `scale`) preserves
the rank and the trailing spatial dimensions of every rank-3 or rank-4 image:
a rank-3 input is wrapped into a batch of size 1 before the warp and the
inserted batch dimension is removed afterwards, and the warp's output size is
the input's own (H, W). -/

/-- C1: for a rank-3 or rank-4 image, whatever `affine` — or `rotate`,
`translate`, `scale` — returns has exactly the input's shape (hence its rank
and trailing (H, W)); moreover on a rank-3 input `affine` is the batched
computation on the unsqueezed (batch-1) input with the inserted batch
dimension squeezed back out. -/
theorem affine_preserves_rank_and_spatial_size (t m a tr sf : Tensor)
    (cv : Option PyVal) (h34 : t.shape.length = 3 ∨ t.shape.length = 4) :
    (∀ out, affine t m = .ok out → out.shape = t.shape) ∧
    (t.shape.length = 3 →
      affine t m = Except.map squeeze0 (affine (unsqueeze0 t) m)) ∧
    (∀ out, rotate (.tensor t) (.tensor a) cv = .ok out → out.shape = t.shape) ∧
    (∀ out, translate (.tensor t) (.tensor tr) = .ok out → out.shape = t.shape) ∧
    (∀ out, scale (.tensor t) (.tensor sf) cv = .ok out → out.shape = t.shape) := by
  refine ⟨fun out h => affine_ok_shape t m out h34 h, ?_, ?_, ?_, ?_⟩
  · intro h3
    obtain ⟨c0, h0, w0, hs⟩ := List.length_eq_three.mp h3
    rw [affine_rank3_eq t m c0 h0 w0 hs,
      affine_rank4_eq (unsqueeze0 t) m 1 c0 h0 w0 (by simp [unsqueeze0, hs])]
    cases he : m.expand [(1 : ℤ), -1, -1] <;> simp [he, Except.map]
  · intro out h
    obtain ⟨mm, hm⟩ := rotate_ok_affine t a cv out h
    exact affine_ok_shape t mm out h34 hm
  · intro out h
    obtain ⟨mm, hm⟩ := translate_ok_affine t tr out h
    exact affine_ok_shape t mm out h34 hm
  · intro out h
    obtain ⟨mm, hm⟩ := scale_ok_affine t sf cv out h
    exact affine_ok_shape t mm out h34 hm

/-- C1 witness: on a concrete rank-3 image the unbatching hypothesis holds and
`affine` factors through the batch-1 computation. -/
theorem affine_preserves_rank_and_spatial_size_witness :
    (imgCHW.shape.length = 3 ∨ imgCHW.shape.length = 4) ∧
    affine imgCHW eye23 = Except.map squeeze0 (affine (unsqueeze0 imgCHW) eye23) :=
  ⟨Or.inl rfl,
    (affine_preserves_rank_and_spatial_size imgCHW eye23 angleZero trans32 angleZero
      none (Or.inl rfl)).2.1 rfl⟩

end TG
